import Mathlib

/-!
Verification of the Instagram publishing core (param4/instagram-manager).

Shallow embedding of:
  - the data model (`src/modules/instagram/types/instagram.type.ts`,
    `entities/instagram-post.entity.ts`, `entities/instagram-account.entity.ts`),
  - the Remote Publishing Client (`services/instagram-api.service.ts`),
  - the Publishing Orchestrator (`services/instagram.service.ts`),
  - the Credential Lifecycle Manager (`services/instagram-oauth.service.ts`),
  - the controller response mappers (`controllers/instagram.controller.ts`).

Remote HTTP calls are modelled by oracles supplying the outcome of each call;
persistence is modelled by explicit repository lists and by traces of events
(saves and remote calls) in the order the code performs them.  Timestamps are
integer epoch milliseconds.
-/

namespace InstagramManager

/-- `PostStatus` enum from `types/instagram.type.ts`. -/
inductive PostStatus where
  | pending
  | container_created
  | processing
  | container_finished
  | published
  | failed
deriving DecidableEq, Repr

/-- `MediaType` enum from `types/instagram.type.ts`. -/
inductive MediaType where
  | image
  | reels
deriving DecidableEq, Repr

/-- `ContainerStatusCode` union from `types/instagram.type.ts`:
`'EXPIRED' | 'ERROR' | 'FINISHED' | 'IN_PROGRESS' | 'PUBLISHED'`. -/
inductive ContainerStatusCode where
  | expired
  | error
  | finished
  | inProgress
  | published
deriving DecidableEq, Repr

/-- The wire string of a `ContainerStatusCode` (the `status_code` field value). -/
def statusCodeStr : ContainerStatusCode → String
  | .expired => "EXPIRED"
  | .error => "ERROR"
  | .finished => "FINISHED"
  | .inProgress => "IN_PROGRESS"
  | .published => "PUBLISHED"

/-- `instagram_posts` row (`entities/instagram-post.entity.ts`).
Dates are epoch milliseconds. -/
structure InstagramPost where
  id : String
  mediaType : MediaType
  mediaUrl : String
  caption : Option String
  status : PostStatus
  containerId : Option String
  instagramMediaId : Option String
  errorMessage : Option String
  permalink : Option String
  accountId : Option String
  createdAt : Int
  updatedAt : Int
deriving DecidableEq, Repr

/-- `instagram_accounts` row (`entities/instagram-account.entity.ts`). -/
structure InstagramAccount where
  id : String
  igUserId : String
  username : String
  name : Option String
  profilePictureUrl : Option String
  accessToken : String
  tokenExpiresAt : Int
  isActive : Bool
  createdAt : Int
  updatedAt : Int
deriving DecidableEq, Repr

/-- The `error` object of `GraphApiErrorResponse` (`types/instagram.type.ts`). -/
structure GraphApiError where
  message : String
  type : String
  code : Int
  fbtrace_id : String
deriving DecidableEq, Repr

/-- `CreateContainerResponse` (`types/instagram.type.ts`). -/
structure CreateContainerResponse where
  id : String
deriving DecidableEq, Repr

/-- `ContainerStatusResponse` (`types/instagram.type.ts`). -/
structure ContainerStatusResponse where
  id : String
  status_code : ContainerStatusCode
deriving DecidableEq, Repr

/-- `PublishMediaResponse` (`types/instagram.type.ts`). -/
structure PublishMediaResponse where
  id : String
deriving DecidableEq, Repr

/-- `TokenRefreshResponse` (`types/instagram.type.ts`); `expires_in` is seconds. -/
structure TokenRefreshResponse where
  access_token : String
  token_type : String
  expires_in : Int
deriving DecidableEq, Repr

/-- `InstagramUserProfile` (`types/instagram.type.ts`). -/
structure InstagramUserProfile where
  id : String
  username : String
  name : Option String
  profile_picture_url : Option String
deriving DecidableEq, Repr

/-- `CreatePostModel` DTO (`models/create-post.model.ts`).  Optional fields are
`Option`; the service applies the `?? IMAGE` default itself. -/
structure CreatePostModel where
  accountId : String
  mediaUrl : String
  caption : Option String
  mediaType : Option MediaType
deriving DecidableEq, Repr

/-- `PostResponseModel` (`models/post-response.model.ts`): the public view of a
post.  It has no `errorMessage`, `containerId` or `accountId` field. -/
structure PostResponseModel where
  id : String
  mediaType : MediaType
  mediaUrl : String
  caption : Option String
  status : PostStatus
  instagramMediaId : Option String
  permalink : Option String
  createdAt : Int
  updatedAt : Int
deriving DecidableEq, Repr

/-- `AccountResponseModel` (`models/account-response.model.ts`): the public view
of an account.  It has no `accessToken` field. -/
structure AccountResponseModel where
  id : String
  igUserId : String
  username : String
  name : Option String
  profilePictureUrl : Option String
  tokenExpiresAt : Int
  isActive : Bool
  createdAt : Int
deriving DecidableEq, Repr

/-! ### Remote Publishing Client (`services/instagram-api.service.ts`)

Each operation builds a request and then handles the parsed JSON response.
The response handling (the part the claims are about) is embedded here: the
HTTP layer is modelled as the pair of the `response.ok` flag and the parsed
body, which is either the success payload or the Graph API error envelope
(`data as SuccessShape | GraphApiErrorResponse` in the source).  The source
casts the body without inspecting it, so on `response.ok` the raw payload is
returned as-is. -/

/-- A parsed JSON response body: either the expected success payload or the
Graph API error envelope. -/
inductive ApiPayload (α : Type) where
  | success (v : α)
  | envelope (e : GraphApiError)
deriving DecidableEq, Repr

/-- An HTTP response as the service sees it: the `ok` flag plus the parsed body. -/
structure HttpResponse (α : Type) where
  ok : Bool
  body : ApiPayload α
deriving DecidableEq, Repr

/-- Response handling of `createMediaContainer` (instagram-api.service.ts,
lines 68-78).  The source checks only `response.ok`; when ok it returns
`data as CreateContainerResponse` — an unchecked cast, so the raw payload is
returned even when it is the error envelope.  When not ok it reads
`(data as GraphApiErrorResponse).error.message`; if the body is not the
envelope that property access itself throws a TypeError. -/
def createMediaContainer (resp : HttpResponse CreateContainerResponse) :
    Except String (ApiPayload CreateContainerResponse) :=
  if resp.ok then
    Except.ok resp.body
  else
    match resp.body with
    | .envelope e => Except.error ("Container creation failed: " ++ e.message)
    | .success _ => Except.error "TypeError: cannot read message of undefined"

/-- Response handling of `getContainerStatus` (instagram-api.service.ts,
lines 103-113); same shape as `createMediaContainer`. -/
def getContainerStatus (resp : HttpResponse ContainerStatusResponse) :
    Except String (ApiPayload ContainerStatusResponse) :=
  if resp.ok then
    Except.ok resp.body
  else
    match resp.body with
    | .envelope e => Except.error ("Container status check failed: " ++ e.message)
    | .success _ => Except.error "TypeError: cannot read message of undefined"

/-- Response handling of `publishContainer` (instagram-api.service.ts,
lines 137-147); same shape as `createMediaContainer`. -/
def publishContainer (resp : HttpResponse PublishMediaResponse) :
    Except String (ApiPayload PublishMediaResponse) :=
  if resp.ok then
    Except.ok resp.body
  else
    match resp.body with
    | .envelope e => Except.error ("Media publish failed: " ++ e.message)
    | .success _ => Except.error "TypeError: cannot read message of undefined"

/-! ### Publishing Orchestrator (`services/instagram.service.ts`)

`createPost` drives one post through the pipeline, persisting the row at every
transition.  A run is embedded as the pair of an event trace — `save` events
(snapshots of the post row as persisted) and `call` events (remote calls,
annotated with the in-memory post at the moment of the call), in program
order — and the result (the response on success, the thrown `HttpException`
payload on failure).  The outcomes of the three remote operations are supplied
by an environment oracle; the account lookup and refresh that precede the post
row creation are modelled by passing in the refreshed account (they touch no
post state). -/

/-- Which remote call of the pipeline an event records. -/
inductive CallKind where
  | createContainer
  | getStatus
  | publish
deriving DecidableEq, Repr

/-- One observable step of a `createPost` run: a repository save of the post
row, or a remote call (annotated with the in-memory post at call time). -/
inductive Ev where
  | save (p : InstagramPost)
  | call (k : CallKind) (p : InstagramPost)
deriving DecidableEq, Repr

/-- Outcome of one `getContainerStatus` call as seen by the orchestrator:
a returned status code, or a thrown error (HTTP failure). -/
inductive PollOutcome where
  | ret (c : ContainerStatusCode)
  | thr (msg : String)
deriving DecidableEq, Repr

/-- Oracle for the remote calls a `createPost` run makes:
`createContainer` yields the container id or a thrown message, `poll i` the
outcome of the i-th status check (0-based), `publish` the media id or a
thrown message. -/
structure CreatePostEnv where
  createContainer : Except String String
  poll : Nat → PollOutcome
  publish : Except String String

/-- The configuration the orchestrator reads at construction
(`igMaxPollingAttempts`; the polling interval only controls sleeping). -/
structure OrchestratorConfig where
  maxPollingAttempts : Nat

/-- The payload of the `HttpException` thrown by `createPost` on failure
(instagram.service.ts, lines 76-83). -/
structure PublishFailure where
  message : String
  detail : String
  postId : String
deriving DecidableEq, Repr

/-- The effective poll budget (instagram.service.ts, lines 106-107):
`isReel ? maxPollingAttempts * 3 : maxPollingAttempts`. -/
def effectiveMaxAttempts (mediaType : MediaType) (base : Nat) : Nat :=
  if mediaType = MediaType.reels then base * 3 else base

/-- The exhaustion error message (instagram.service.ts, line 133). -/
def exhaustedMsg (cid : String) (maxAttempts : Nat) : String :=
  "Container " ++ cid ++ " did not finish within " ++ toString maxAttempts ++ " attempts"

/-- The terminal-status error message (instagram.service.ts, lines 125-127). -/
def terminalMsg (cid : String) (c : ContainerStatusCode) : String :=
  "Container " ++ cid ++ " reached terminal status: " ++ statusCodeStr c

/-- The `for` loop of `waitForContainerReady` (instagram.service.ts,
lines 109-133), recursing on the remaining attempts.  `attempt` is the 0-based
loop index; on `FINISHED` the post moves to `container_finished` and is saved;
on `ERROR`/`EXPIRED` or a thrown status check the loop signals the error;
any other status code consumes the attempt (after sleeping); running out of
attempts signals the exhaustion error. -/
def pollGo (poll : Nat → PollOutcome) (cid : String) (maxAttempts : Nat) :
    InstagramPost → Nat → Nat → List Ev × Except String InstagramPost
  | _, _, 0 => ([], Except.error (exhaustedMsg cid maxAttempts))
  | post, attempt, rem + 1 =>
    match poll attempt with
    | .thr msg => ([Ev.call .getStatus post], Except.error msg)
    | .ret c =>
      if c = ContainerStatusCode.finished then
        ([Ev.call .getStatus post, Ev.save { post with status := .container_finished }],
          Except.ok { post with status := .container_finished })
      else if c = ContainerStatusCode.error ∨ c = ContainerStatusCode.expired then
        ([Ev.call .getStatus post], Except.error (terminalMsg cid c))
      else
        let r := pollGo poll cid maxAttempts post (attempt + 1) rem
        (Ev.call .getStatus post :: r.1, r.2)

/-- `waitForContainerReady` (instagram.service.ts, lines 102-134): persist
`processing`, then poll up to the effective budget.  The source reads
`post.containerId!` (non-null assertion: the orchestrator sets it before
calling); the embedding reads the option with default `""`. -/
def waitForContainerReady (cfg : OrchestratorConfig) (poll : Nat → PollOutcome)
    (post : InstagramPost) : List Ev × Except String InstagramPost :=
  let post1 := { post with status := PostStatus.processing }
  let maxAttempts := effectiveMaxAttempts post1.mediaType cfg.maxPollingAttempts
  let r := pollGo poll (post1.containerId.getD "") maxAttempts post1 0 maxAttempts
  (Ev.save post1 :: r.1, r.2)

/-- `toResponse` (instagram.service.ts, lines 140-152): the public view of a
post row. -/
def toResponse (post : InstagramPost) : PostResponseModel :=
  { id := post.id
    mediaType := post.mediaType
    mediaUrl := post.mediaUrl
    caption := post.caption
    status := post.status
    instagramMediaId := post.instagramMediaId
    permalink := post.permalink
    createdAt := post.createdAt
    updatedAt := post.updatedAt }

/-- The `catch` block of `createPost` (instagram.service.ts, lines 70-84):
persist `failed` with the causing message, then throw the uniform
`HttpException` carrying the post id and the stored message. -/
def failOutcome (post : InstagramPost) (msg : String) :
    List Ev × Except PublishFailure PostResponseModel :=
  ([Ev.save { post with status := PostStatus.failed, errorMessage := some msg }],
    Except.error { message := "Instagram post failed", detail := msg, postId := post.id })

/-- `createPost` (instagram.service.ts, lines 29-85) from the point where the
refreshed account is in hand: default the media kind, create and persist the
`pending` row, create the container, poll, publish; on any thrown error persist
`failed` and throw the uniform failure.  `newId` is the UUID the database
generates for the row and `now` its creation timestamp. -/
def createPost (cfg : OrchestratorConfig) (env : CreatePostEnv)
    (acct : InstagramAccount) (dto : CreatePostModel) (newId : String) (now : Int) :
    List Ev × Except PublishFailure PostResponseModel :=
  let mediaType := dto.mediaType.getD MediaType.image
  let post0 : InstagramPost :=
    { id := newId
      mediaType := mediaType
      mediaUrl := dto.mediaUrl
      caption := dto.caption
      status := PostStatus.pending
      containerId := none
      instagramMediaId := none
      errorMessage := none
      permalink := none
      accountId := some acct.id
      createdAt := now
      updatedAt := now }
  match env.createContainer with
  | .error msg =>
    let f := failOutcome post0 msg
    ([Ev.save post0, Ev.call .createContainer post0] ++ f.1, f.2)
  | .ok cid =>
    let post1 := { post0 with containerId := some cid, status := PostStatus.container_created }
    let w := waitForContainerReady cfg env.poll post1
    let evs1 := [Ev.save post0, Ev.call .createContainer post0, Ev.save post1] ++ w.1
    match w.2 with
    | .error msg =>
      let f := failOutcome { post1 with status := PostStatus.processing } msg
      (evs1 ++ f.1, f.2)
    | .ok post2 =>
      match env.publish with
      | .error msg =>
        let f := failOutcome post2 msg
        (evs1 ++ [Ev.call .publish post2] ++ f.1, f.2)
      | .ok mid =>
        let post3 := { post2 with instagramMediaId := some mid, status := PostStatus.published }
        (evs1 ++ [Ev.call .publish post2, Ev.save post3], Except.ok (toResponse post3))

/-- `getPost` (instagram.service.ts, lines 87-93): find by id, 404 if absent,
else the public view. -/
def getPost (db : List InstagramPost) (id : String) : Except String PostResponseModel :=
  match db.find? (fun p => p.id == id) with
  | none => Except.error "Post not found"
  | some p => Except.ok (toResponse p)

/-- Insertion step for ordering by `createdAt` descending (stable: equal keys
keep their relative order). -/
def insertByCreatedAtDesc (p : InstagramPost) : List InstagramPost → List InstagramPost
  | [] => [p]
  | q :: rest =>
    if p.createdAt > q.createdAt then p :: q :: rest
    else q :: insertByCreatedAtDesc p rest

/-- The `order: { createdAt: 'DESC' }` find (instagram.service.ts,
lines 96-98), as a stable insertion sort of the stored rows. -/
def sortByCreatedAtDesc (db : List InstagramPost) : List InstagramPost :=
  db.foldr insertByCreatedAtDesc []

/-- `listPosts` (instagram.service.ts, lines 95-100): all rows newest-first,
each mapped to the public view. -/
def listPosts (db : List InstagramPost) : List PostResponseModel :=
  (sortByCreatedAtDesc db).map toResponse

/-! ### Credential Lifecycle Manager (`services/instagram-oauth.service.ts`)

The account repository is a list of rows.  TypeORM `findOne` is `List.find?`;
`save` updates the row with the same id if present, otherwise appends. -/

/-- One observable step of a refresh run: the remote refresh call (annotated
with the access token sent) or a repository save. -/
inductive RefreshEv where
  | remoteRefresh (accessTokenUsed : String)
  | saveAccount (a : InstagramAccount)
deriving DecidableEq, Repr

/-- Repository `save` for accounts: update-in-place by `id` when the row
exists, insert otherwise. -/
def saveAccountRow (db : List InstagramAccount) (a : InstagramAccount) :
    List InstagramAccount :=
  if db.any (fun b => b.id == a.id) then
    db.map (fun b => if b.id == a.id then a else b)
  else
    db ++ [a]

/-- `upsertAccount` (instagram-oauth.service.ts, lines 104-134): look up by
`igUserId`; if found overwrite profile fields, token, expiry and force
`isActive := true`; otherwise create a new active row (`freshId` is the
generated UUID, `now` the creation timestamp).  Returns the saved entity and
the updated repository. -/
def upsertAccount (db : List InstagramAccount) (freshId : String) (now : Int)
    (profile : InstagramUserProfile) (accessToken : String) (expiresAt : Int) :
    InstagramAccount × List InstagramAccount :=
  match db.find? (fun a => a.igUserId == profile.id) with
  | some existing =>
    let updated := { existing with
      username := profile.username
      name := profile.name
      profilePictureUrl := profile.profile_picture_url
      accessToken := accessToken
      tokenExpiresAt := expiresAt
      isActive := true }
    (updated, saveAccountRow db updated)
  | none =>
    let account : InstagramAccount :=
      { id := freshId
        igUserId := profile.id
        username := profile.username
        name := profile.name
        profilePictureUrl := profile.profile_picture_url
        accessToken := accessToken
        tokenExpiresAt := expiresAt
        isActive := true
        createdAt := now
        updatedAt := now }
    (account, saveAccountRow db account)

/-- `refreshTokenIfNeeded` (instagram-oauth.service.ts, lines 136-161):
if `tokenExpiresAt - now < 7 days` call the refresh endpoint with the current
token and, on a success payload, replace token and expiry
(`now + expires_in * 1000`) and persist; on an error envelope throw; otherwise
return the account unchanged with no remote call and no save.  `refreshResp`
is the parsed response of the (only possible) remote call; the two `Date.now()`
reads of the source are both modelled by `now`. -/
def refreshTokenIfNeeded (now : Int) (refreshResp : Except String TokenRefreshResponse)
    (account : InstagramAccount) : List RefreshEv × Except String InstagramAccount :=
  let sevenDaysMs : Int := 7 * 24 * 60 * 60 * 1000
  let isNearExpiry := account.tokenExpiresAt - now < sevenDaysMs
  if isNearExpiry then
    let callEv := RefreshEv.remoteRefresh account.accessToken
    match refreshResp with
    | .error msg => ([callEv], Except.error ("Token refresh failed: " ++ msg))
    | .ok d =>
      let updated := { account with
        accessToken := d.access_token
        tokenExpiresAt := now + d.expires_in * 1000 }
      ([callEv, RefreshEv.saveAccount updated], Except.ok updated)
  else
    ([], Except.ok account)

/-- `listAccounts` of the OAuth service (instagram-oauth.service.ts): all rows
with `isActive = true`. -/
def listActiveAccounts (db : List InstagramAccount) : List InstagramAccount :=
  db.filter (fun a => a.isActive)

/-! ### Controller response mappers (`controllers/instagram.controller.ts`) -/

/-- `toAccountResponse` (instagram.controller.ts, lines 233-244): the public
view of an account row; the access token is not copied. -/
def toAccountResponse (account : InstagramAccount) : AccountResponseModel :=
  { id := account.id
    igUserId := account.igUserId
    username := account.username
    name := account.name
    profilePictureUrl := account.profilePictureUrl
    tokenExpiresAt := account.tokenExpiresAt
    isActive := account.isActive
    createdAt := account.createdAt }

/-- The `data` array of the controller `listAccounts` endpoint
(instagram.controller.ts, lines 109-120): active accounts mapped through
`toAccountResponse`. -/
def listAccountsData (db : List InstagramAccount) : List AccountResponseModel :=
  (listActiveAccounts db).map toAccountResponse

/-- The result of `exchangeCodeForToken` as consumed by the controller. -/
structure ExchangeResult where
  igUserId : String
  accessToken : String
  expiresAt : Int
deriving DecidableEq, Repr

/-- `handleCallback` (instagram.controller.ts, lines 81-97) after the
missing-code guard: exchange the code, fetch the profile, upsert the account,
and answer with `toAccountResponse` of the upserted entity.  The two remote
results are supplied as oracles; the returned pair is the response `data`
field and the updated repository. -/
def handleCallback (db : List InstagramAccount) (freshId : String) (now : Int)
    (exchangeRes : Except String ExchangeResult)
    (profileRes : Except String InstagramUserProfile) :
    Except String (AccountResponseModel × List InstagramAccount) :=
  match exchangeRes with
  | .error e => Except.error e
  | .ok ex =>
    match profileRes with
    | .error e => Except.error e
    | .ok profile =>
      let r := upsertAccount db freshId now profile ex.accessToken ex.expiresAt
      Except.ok (toAccountResponse r.1, r.2)

/-! ### Trace observations

Derived views of a `createPost` event trace, used to state the spec's
persistence and state-machine properties. -/

/-- The post snapshots persisted by a trace, in order. -/
def savedPosts (tr : List Ev) : List InstagramPost :=
  tr.filterMap fun e =>
    match e with
    | .save p => some p
    | .call _ _ => none

/-- The persisted statuses of a trace, in order. -/
def savedStatuses (tr : List Ev) : List PostStatus :=
  (savedPosts tr).map (fun p => p.status)

/-- The last persisted snapshot of a trace. -/
def lastSave : List Ev → Option InstagramPost
  | [] => none
  | Ev.save p :: rest => some ((lastSave rest).getD p)
  | Ev.call _ _ :: rest => lastSave rest

/-- Number of remote calls of kind `k` a trace performs. -/
def countCalls (k : CallKind) (tr : List Ev) : Nat :=
  tr.countP fun e =>
    match e with
    | .call k2 _ => k2 == k
    | .save _ => false

/-- The edges of the §4.3 transition table: the forward chain
`pending → container_created → processing → container_finished → published`,
plus `failed` from every non-terminal status. -/
def specEdge : PostStatus → PostStatus → Bool
  | .pending, .container_created => true
  | .container_created, .processing => true
  | .processing, .container_finished => true
  | .container_finished, .published => true
  | .pending, .failed => true
  | .container_created, .failed => true
  | .processing, .failed => true
  | .container_finished, .failed => true
  | _, _ => false

/-- Every consecutive pair of `prev :: l` is a `specEdge`. -/
def chainFrom : PostStatus → List PostStatus → Bool
  | _, [] => true
  | prev, s :: rest => specEdge prev s && chainFrom s rest

/-- Every consecutive pair of the list is a `specEdge`. -/
def chainOk : List PostStatus → Bool
  | [] => true
  | s :: rest => chainFrom s rest

/-- Every `call` event carries exactly the last persisted snapshot: no remote
call executes while a post mutation is still unpersisted.  The accumulator is
the last persisted snapshot so far. -/
def callsMatchLastSave : Option InstagramPost → List Ev → Bool
  | _, [] => true
  | _, Ev.save p :: rest => callsMatchLastSave (some p) rest
  | last, Ev.call _ p :: rest => (decide (last = some p)) && callsMatchLastSave last rest

/-- No `published` is persisted unless `container_finished` was persisted
earlier; the accumulator records whether `container_finished` has occurred. -/
def publishedAfterFinished : Bool → List PostStatus → Bool
  | _, [] => true
  | seen, s :: rest =>
    (if s = PostStatus.published then seen else true) &&
      publishedAfterFinished (seen || decide (s = PostStatus.container_finished)) rest

/-- A poll outcome that merely consumes an attempt: a returned status code
that is neither `FINISHED` nor `ERROR` nor `EXPIRED`. -/
def pollContinues : PollOutcome → Bool
  | .thr _ => false
  | .ret c =>
    !(decide (c = ContainerStatusCode.finished)) &&
      !(decide (c = ContainerStatusCode.error ∨ c = ContainerStatusCode.expired))

/-- Erase the two post fields that `toResponse` does not copy
(`errorMessage` and `accountId`); used to state that the read paths do not
depend on them. -/
def scrubHidden (p : InstagramPost) : InstagramPost :=
  { p with errorMessage := none, accountId := none }

/-! ### Concrete fixtures (used by the witness theorems) -/

/-- A sample active account. -/
def sampleAccount : InstagramAccount :=
  { id := "acct-1", igUserId := "ig-1", username := "alice", name := none,
    profilePictureUrl := none, accessToken := "tok-0", tokenExpiresAt := 0,
    isActive := true, createdAt := 0, updatedAt := 0 }

/-- A sample image post request (media kind left to the default). -/
def sampleDto : CreatePostModel :=
  { accountId := "acct-1", mediaUrl := "https://example.com/a.jpg",
    caption := none, mediaType := none }

/-- Environment in which container creation throws. -/
def envCreateFails : CreatePostEnv :=
  { createContainer := Except.error "boom",
    poll := fun _ => PollOutcome.ret ContainerStatusCode.inProgress,
    publish := Except.ok "m-1" }

/-- Environment in which every status check reports `IN_PROGRESS`. -/
def envAlwaysInProgress : CreatePostEnv :=
  { createContainer := Except.ok "c-1",
    poll := fun _ => PollOutcome.ret ContainerStatusCode.inProgress,
    publish := Except.ok "m-1" }

/-- Environment in which the second status check reports `ERROR`. -/
def envErrorOnSecond : CreatePostEnv :=
  { createContainer := Except.ok "c-1",
    poll := fun i =>
      if i = 0 then PollOutcome.ret ContainerStatusCode.inProgress
      else PollOutcome.ret ContainerStatusCode.error,
    publish := Except.ok "m-1" }

@[simp]
theorem savedPosts_nil : savedPosts [] = [] := rfl

@[simp]
theorem savedPosts_cons_save (p : InstagramPost) (tr : List Ev) :
    savedPosts (Ev.save p :: tr) = p :: savedPosts tr := rfl

@[simp]
theorem savedPosts_cons_call (k : CallKind) (p : InstagramPost) (tr : List Ev) :
    savedPosts (Ev.call k p :: tr) = savedPosts tr := rfl

@[simp]
theorem savedPosts_append (l1 l2 : List Ev) :
    savedPosts (l1 ++ l2) = savedPosts l1 ++ savedPosts l2 := by
  simp [savedPosts]

@[simp]
theorem savedPosts_replicate_call (n : Nat) (k : CallKind) (p : InstagramPost) :
    savedPosts (List.replicate n (Ev.call k p)) = [] := by
  induction n with
  | zero => rfl
  | succ m ih => simp [List.replicate_succ, ih]

@[simp]
theorem countCalls_nil (k : CallKind) : countCalls k [] = 0 := rfl

@[simp]
theorem countCalls_cons_save (k : CallKind) (p : InstagramPost) (tr : List Ev) :
    countCalls k (Ev.save p :: tr) = countCalls k tr := by
  simp [countCalls, List.countP_cons]

@[simp]
theorem countCalls_cons_call (k k2 : CallKind) (p : InstagramPost) (tr : List Ev) :
    countCalls k (Ev.call k2 p :: tr) =
      countCalls k tr + (if k2 == k then 1 else 0) := by
  simp [countCalls, List.countP_cons]

@[simp]
theorem countCalls_append (k : CallKind) (l1 l2 : List Ev) :
    countCalls k (l1 ++ l2) = countCalls k l1 + countCalls k l2 := by
  simp [countCalls, List.countP_append]

@[simp]
theorem countCalls_replicate_call (n : Nat) (k : CallKind) (p : InstagramPost) :
    countCalls k (List.replicate n (Ev.call k p)) = n := by
  induction n with
  | zero => rfl
  | succ m ih => simp [List.replicate_succ, ih]

@[simp]
theorem lastSave_replicate_call (n : Nat) (k : CallKind) (p : InstagramPost)
    (rest : List Ev) :
    lastSave (List.replicate n (Ev.call k p) ++ rest) = lastSave rest := by
  induction n with
  | zero => rfl
  | succ m ih => simp [List.replicate_succ, lastSave, ih]

@[simp]
theorem lastSave_concat_save (tr : List Ev) (p : InstagramPost) :
    lastSave (tr ++ [Ev.save p]) = some p := by
  induction tr with
  | nil => rfl
  | cons e rest ih => cases e <;> simp [lastSave, ih]

@[simp]
theorem callsMatchLastSave_replicate (n : Nat) (k : CallKind) (p : InstagramPost)
    (rest : List Ev) :
    callsMatchLastSave (some p) (List.replicate n (Ev.call k p) ++ rest) =
      callsMatchLastSave (some p) rest := by
  induction n with
  | zero => rfl
  | succ m ih => simp [List.replicate_succ, callsMatchLastSave, ih]

/-! ### Polling-loop lemmas -/

/-- Shape of a polling run: some number of status-check calls on the unchanged
in-memory post, ending either in an error (thrown check, terminal status, or
exhaustion) with no further save, or in the `container_finished` save. -/
theorem pollGo_shape (poll : Nat → PollOutcome) (cid : String) (maxA : Nat) :
    ∀ fuel attempt post,
      (∃ n msg, pollGo poll cid maxA post attempt fuel =
        (List.replicate n (Ev.call CallKind.getStatus post), Except.error msg)) ∨
      (∃ n, pollGo poll cid maxA post attempt fuel =
        (List.replicate n (Ev.call CallKind.getStatus post) ++
          [Ev.save { post with status := PostStatus.container_finished }],
          Except.ok { post with status := PostStatus.container_finished })) := by
  intro fuel
  induction fuel with
  | zero =>
    intro attempt post
    exact Or.inl ⟨0, exhaustedMsg cid maxA, rfl⟩
  | succ rem ih =>
    intro attempt post
    cases hp : poll attempt with
    | thr msg =>
      exact Or.inl ⟨1, msg, by simp [pollGo, hp, List.replicate]⟩
    | ret c =>
      by_cases hf : c = ContainerStatusCode.finished
      · exact Or.inr ⟨1, by simp [pollGo, hp, hf, List.replicate]⟩
      · by_cases he : c = ContainerStatusCode.error ∨ c = ContainerStatusCode.expired
        · exact Or.inl ⟨1, terminalMsg cid c, by simp [pollGo, hp, hf, he, List.replicate]⟩
        · rcases ih (attempt + 1) post with ⟨n, msg, hr⟩ | ⟨n, hr⟩
          · refine Or.inl ⟨n + 1, msg, ?_⟩
            simp [pollGo, hp, hf, he, hr, List.replicate_succ]
          · refine Or.inr ⟨n + 1, ?_⟩
            simp [pollGo, hp, hf, he, hr, List.replicate_succ]

/-- When every status check merely consumes an attempt, the loop performs
exactly `fuel` checks and signals budget exhaustion. -/
theorem pollGo_all_continue (poll : Nat → PollOutcome) (cid : String) (maxA : Nat)
    (h : ∀ i, pollContinues (poll i) = true) :
    ∀ fuel attempt post,
      pollGo poll cid maxA post attempt fuel =
        (List.replicate fuel (Ev.call CallKind.getStatus post),
          Except.error (exhaustedMsg cid maxA)) := by
  intro fuel
  induction fuel with
  | zero => intro attempt post; rfl
  | succ rem ih =>
    intro attempt post
    have hc := h attempt
    cases hp : poll attempt with
    | thr msg => rw [hp] at hc; simp [pollContinues] at hc
    | ret c =>
      rw [hp] at hc
      simp only [pollContinues, Bool.and_eq_true, Bool.not_eq_true'] at hc
      obtain ⟨hf, he⟩ := hc
      simp only [decide_eq_false_iff_not] at hf he
      simp [pollGo, hp, hf, he, ih (attempt + 1) post, List.replicate_succ]

/-- When the first `j` checks merely consume attempts and check `j` (0-based)
returns `ERROR` or `EXPIRED`, the loop performs exactly `j + 1` checks and
signals the terminal-status error naming the container id and the code. -/
theorem pollGo_terminal_at (poll : Nat → PollOutcome) (cid : String) (maxA : Nat)
    (c : ContainerStatusCode)
    (hterm : c = ContainerStatusCode.error ∨ c = ContainerStatusCode.expired) :
    ∀ j fuel attempt post, j < fuel →
      (∀ i, i < j → pollContinues (poll (attempt + i)) = true) →
      poll (attempt + j) = PollOutcome.ret c →
      pollGo poll cid maxA post attempt fuel =
        (List.replicate (j + 1) (Ev.call CallKind.getStatus post),
          Except.error (terminalMsg cid c)) := by
  intro j
  induction j with
  | zero =>
    intro fuel attempt post hlt _ hpoll
    cases fuel with
    | zero => omega
    | succ rem =>
      have hf : c ≠ ContainerStatusCode.finished := by
        rcases hterm with h1 | h1 <;> simp [h1]
      simp [pollGo, Nat.add_zero] at hpoll
      simp [pollGo, hpoll, hf, hterm, List.replicate]
  | succ jp ih =>
    intro fuel attempt post hlt hcont hpoll
    cases fuel with
    | zero => omega
    | succ rem =>
      have hc := hcont 0 (Nat.succ_pos jp)
      rw [Nat.add_zero] at hc
      cases hp : poll attempt with
      | thr msg => rw [hp] at hc; simp [pollContinues] at hc
      | ret c0 =>
        rw [hp] at hc
        simp only [pollContinues, Bool.and_eq_true, Bool.not_eq_true'] at hc
        obtain ⟨hf0, he0⟩ := hc
        simp only [decide_eq_false_iff_not] at hf0 he0
        have hcont2 : ∀ i, i < jp → pollContinues (poll (attempt + 1 + i)) = true := by
          intro i hi
          have := hcont (i + 1) (by omega)
          rwa [show attempt + (i + 1) = attempt + 1 + i by omega] at this
        have hpoll2 : poll (attempt + 1 + jp) = PollOutcome.ret c := by
          rwa [show attempt + 1 + jp = attempt + (jp + 1) by omega]
        have := ih rem (attempt + 1) post (by omega) hcont2 hpoll2
        simp [pollGo, hp, hf0, he0, this, List.replicate_succ]

/-- Shape of a `waitForContainerReady` run: the `processing` save, the status
checks on the unchanged in-memory post, and either an error with no further
save or the `container_finished` save which is also the returned post. -/
theorem waitForContainerReady_shape (cfg : OrchestratorConfig) (poll : Nat → PollOutcome)
    (post : InstagramPost) :
    (∃ n msg, waitForContainerReady cfg poll post =
      (Ev.save { post with status := PostStatus.processing } ::
        List.replicate n
          (Ev.call CallKind.getStatus { post with status := PostStatus.processing }),
        Except.error msg)) ∨
    (∃ n, waitForContainerReady cfg poll post =
      (Ev.save { post with status := PostStatus.processing } ::
        (List.replicate n
          (Ev.call CallKind.getStatus { post with status := PostStatus.processing }) ++
          [Ev.save { post with status := PostStatus.container_finished }]),
        Except.ok { post with status := PostStatus.container_finished })) := by
  rcases pollGo_shape poll
      (({ post with status := PostStatus.processing } : InstagramPost).containerId.getD "")
      (effectiveMaxAttempts ({ post with status := PostStatus.processing } : InstagramPost).mediaType
        cfg.maxPollingAttempts)
      (effectiveMaxAttempts ({ post with status := PostStatus.processing } : InstagramPost).mediaType
        cfg.maxPollingAttempts)
      0 { post with status := PostStatus.processing } with ⟨n, msg, hr⟩ | ⟨n, hr⟩
  · exact Or.inl ⟨n, msg, by simp [waitForContainerReady, hr]⟩
  · exact Or.inr ⟨n, by simp [waitForContainerReady, hr]⟩

/-- Claim C1: every `createPost` run persists statuses along the §4.3 edges
only, starting at `pending`; every remote call sees exactly the last persisted
snapshot (every status change is persisted before the next remote call); and
`published` is never persisted without `container_finished` having been
persisted earlier. -/
theorem createPost_state_machine (cfg : OrchestratorConfig) (env : CreatePostEnv)
    (acct : InstagramAccount) (dto : CreatePostModel) (newId : String) (now : Int) :
    (savedStatuses (createPost cfg env acct dto newId now).1).head? = some PostStatus.pending ∧
    chainOk (savedStatuses (createPost cfg env acct dto newId now).1) = true ∧
    callsMatchLastSave none (createPost cfg env acct dto newId now).1 = true ∧
    publishedAfterFinished false (savedStatuses (createPost cfg env acct dto newId now).1) = true := by
  cases hc : env.createContainer with
  | error msg =>
    simp [createPost, hc, failOutcome, savedStatuses, chainOk, chainFrom, specEdge,
      callsMatchLastSave, publishedAfterFinished]
  | ok cid =>
    rcases waitForContainerReady_shape cfg env.poll
        { id := newId, mediaType := dto.mediaType.getD MediaType.image,
          mediaUrl := dto.mediaUrl, caption := dto.caption,
          status := PostStatus.container_created, containerId := some cid,
          instagramMediaId := none, errorMessage := none, permalink := none,
          accountId := some acct.id, createdAt := now,
          updatedAt := now } with ⟨n, msg, hw⟩ | ⟨n, hw⟩
    · simp [createPost, hc, hw, failOutcome, savedStatuses, chainOk, chainFrom, specEdge,
        callsMatchLastSave, publishedAfterFinished]
    · cases hp : env.publish with
      | error msg2 =>
        simp [createPost, hc, hw, hp, failOutcome, savedStatuses, chainOk, chainFrom, specEdge,
          callsMatchLastSave, publishedAfterFinished]
      | ok mid =>
        simp [createPost, hc, hw, hp, savedStatuses, chainOk, chainFrom, specEdge,
          callsMatchLastSave, publishedAfterFinished]

/-- Claim C2: whenever `createPost` fails after the post row exists, the last
persisted snapshot has status `failed` and carries the causing message in
`errorMessage`, and the surfaced error is the single uniform
"Instagram post failed" failure carrying the post id and that stored message. -/
theorem createPost_failure_durable (cfg : OrchestratorConfig) (env : CreatePostEnv)
    (acct : InstagramAccount) (dto : CreatePostModel) (newId : String) (now : Int)
    (f : PublishFailure)
    (h : (createPost cfg env acct dto newId now).2 = Except.error f) :
    f.message = "Instagram post failed" ∧ f.postId = newId ∧
    ∃ p, lastSave (createPost cfg env acct dto newId now).1 = some p ∧
      p.status = PostStatus.failed ∧ p.errorMessage = some f.detail := by
  cases hc : env.createContainer with
  | error msg =>
    simp [createPost, hc, failOutcome] at h
    subst h
    refine ⟨rfl, rfl, ?_⟩
    simp [createPost, hc, failOutcome, lastSave]
  | ok cid =>
    rcases waitForContainerReady_shape cfg env.poll
        { id := newId, mediaType := dto.mediaType.getD MediaType.image,
          mediaUrl := dto.mediaUrl, caption := dto.caption,
          status := PostStatus.container_created, containerId := some cid,
          instagramMediaId := none, errorMessage := none, permalink := none,
          accountId := some acct.id, createdAt := now,
          updatedAt := now } with ⟨n, msg, hw⟩ | ⟨n, hw⟩
    · simp [createPost, hc, hw, failOutcome] at h
      subst h
      refine ⟨rfl, rfl, ?_⟩
      simp [createPost, hc, hw, failOutcome, lastSave]
    · cases hp : env.publish with
      | error msg2 =>
        simp [createPost, hc, hw, hp, failOutcome] at h
        subst h
        refine ⟨rfl, rfl, ?_⟩
        simp [createPost, hc, hw, hp, failOutcome, lastSave]
      | ok mid =>
        simp [createPost, hc, hw, hp] at h

/-- Claim C5: the effective poll budget is exactly 3× the configured base
attempts for `reels` and exactly the base attempts for `image`. -/
theorem effectiveMaxAttempts_policy (base : Nat) :
    effectiveMaxAttempts MediaType.reels base = 3 * base ∧
    effectiveMaxAttempts MediaType.image base = base := by
  constructor <;> simp [effectiveMaxAttempts, Nat.mul_comm]

/-- Claim C4: when every status check reports a non-terminal code, `createPost`
performs exactly the budgeted number of status checks and then persists
`failed` with the message naming the container id and the budget; the surfaced
failure carries the same stored message. -/
theorem createPost_budget_exhausted (cfg : OrchestratorConfig) (env : CreatePostEnv)
    (acct : InstagramAccount) (dto : CreatePostModel) (newId : String) (now : Int)
    (cid : String)
    (hcc : env.createContainer = Except.ok cid)
    (hcont : ∀ i, pollContinues (env.poll i) = true) :
    countCalls CallKind.getStatus (createPost cfg env acct dto newId now).1 =
      effectiveMaxAttempts (dto.mediaType.getD MediaType.image) cfg.maxPollingAttempts ∧
    (createPost cfg env acct dto newId now).2 = Except.error
      { message := "Instagram post failed",
        detail := exhaustedMsg cid
          (effectiveMaxAttempts (dto.mediaType.getD MediaType.image) cfg.maxPollingAttempts),
        postId := newId } ∧
    ∃ p, lastSave (createPost cfg env acct dto newId now).1 = some p ∧
      p.status = PostStatus.failed ∧
      p.errorMessage = some (exhaustedMsg cid
        (effectiveMaxAttempts (dto.mediaType.getD MediaType.image) cfg.maxPollingAttempts)) := by
  have hpg := pollGo_all_continue env.poll cid
      (effectiveMaxAttempts (dto.mediaType.getD MediaType.image) cfg.maxPollingAttempts) hcont
      (effectiveMaxAttempts (dto.mediaType.getD MediaType.image) cfg.maxPollingAttempts) 0
      { id := newId, mediaType := dto.mediaType.getD MediaType.image,
        mediaUrl := dto.mediaUrl, caption := dto.caption,
        status := PostStatus.processing, containerId := some cid,
        instagramMediaId := none, errorMessage := none, permalink := none,
        accountId := some acct.id, createdAt := now, updatedAt := now }
  refine ⟨?_, ?_, ?_⟩ <;>
    simp [createPost, hcc, waitForContainerReady, hpg, failOutcome, lastSave]

/-- Claim C6: when the first `j` status checks report non-terminal codes and
check `j` (0-based) reports `ERROR` or `EXPIRED` within the budget,
`createPost` performs exactly `j + 1` status checks — none after the terminal
report — and persists `failed` with the message naming the container id and
the terminal status code; the surfaced failure carries the same message. -/
theorem createPost_terminal_status (cfg : OrchestratorConfig) (env : CreatePostEnv)
    (acct : InstagramAccount) (dto : CreatePostModel) (newId : String) (now : Int)
    (cid : String) (j : Nat) (c : ContainerStatusCode)
    (hcc : env.createContainer = Except.ok cid)
    (hj : j < effectiveMaxAttempts (dto.mediaType.getD MediaType.image) cfg.maxPollingAttempts)
    (hcont : ∀ i, i < j → pollContinues (env.poll i) = true)
    (hpj : env.poll j = PollOutcome.ret c)
    (hterm : c = ContainerStatusCode.error ∨ c = ContainerStatusCode.expired) :
    countCalls CallKind.getStatus (createPost cfg env acct dto newId now).1 = j + 1 ∧
    (createPost cfg env acct dto newId now).2 = Except.error
      { message := "Instagram post failed", detail := terminalMsg cid c, postId := newId } ∧
    ∃ p, lastSave (createPost cfg env acct dto newId now).1 = some p ∧
      p.status = PostStatus.failed ∧
      p.errorMessage = some (terminalMsg cid c) := by
  have hpg := pollGo_terminal_at env.poll cid
      (effectiveMaxAttempts (dto.mediaType.getD MediaType.image) cfg.maxPollingAttempts) c hterm
      j (effectiveMaxAttempts (dto.mediaType.getD MediaType.image) cfg.maxPollingAttempts) 0
      { id := newId, mediaType := dto.mediaType.getD MediaType.image,
        mediaUrl := dto.mediaUrl, caption := dto.caption,
        status := PostStatus.processing, containerId := some cid,
        instagramMediaId := none, errorMessage := none, permalink := none,
        accountId := some acct.id, createdAt := now, updatedAt := now }
      hj (fun i hi => by simpa using hcont i hi) (by simpa using hpj)
  refine ⟨?_, ?_, ?_⟩ <;>
    simp [createPost, hcc, waitForContainerReady, hpg, failOutcome, lastSave]

/-- Witness for C2: with container creation throwing `"boom"`, the run ends
with a persisted `failed` snapshot storing `"boom"`. -/
theorem createPost_failure_durable_witness :
    ∃ p, lastSave (createPost ⟨3⟩ envCreateFails sampleAccount sampleDto "p-1" 0).1 = some p ∧
      p.status = PostStatus.failed ∧ p.errorMessage = some "boom" :=
  (createPost_failure_durable ⟨3⟩ envCreateFails sampleAccount sampleDto "p-1" 0
    { message := "Instagram post failed", detail := "boom", postId := "p-1" } rfl).2.2

/-- Witness for C4: base attempts 3, image post, polls always `IN_PROGRESS`:
exactly 3 status checks, then `failed` with the message naming `c-1` and `3`. -/
theorem createPost_budget_exhausted_witness :
    countCalls CallKind.getStatus
      (createPost ⟨3⟩ envAlwaysInProgress sampleAccount sampleDto "p-2" 0).1 = 3 ∧
    ∃ p, lastSave (createPost ⟨3⟩ envAlwaysInProgress sampleAccount sampleDto "p-2" 0).1 =
        some p ∧
      p.status = PostStatus.failed ∧
      p.errorMessage = some "Container c-1 did not finish within 3 attempts" :=
  ⟨(createPost_budget_exhausted ⟨3⟩ envAlwaysInProgress sampleAccount sampleDto "p-2" 0 "c-1"
      rfl (fun _ => rfl)).1,
    (createPost_budget_exhausted ⟨3⟩ envAlwaysInProgress sampleAccount sampleDto "p-2" 0 "c-1"
      rfl (fun _ => rfl)).2.2⟩

/-- Witness for C6: max 5 attempts, `ERROR` on the second check: exactly 2
status checks, then `failed` with the `ERROR` message. -/
theorem createPost_terminal_status_witness :
    countCalls CallKind.getStatus
      (createPost ⟨5⟩ envErrorOnSecond sampleAccount sampleDto "p-3" 0).1 = 2 ∧
    (createPost ⟨5⟩ envErrorOnSecond sampleAccount sampleDto "p-3" 0).2 = Except.error
      { message := "Instagram post failed",
        detail := "Container c-1 reached terminal status: ERROR", postId := "p-3" } :=
  ⟨(createPost_terminal_status ⟨5⟩ envErrorOnSecond sampleAccount sampleDto "p-3" 0 "c-1" 1
      ContainerStatusCode.error rfl (by decide)
      (fun i hi => by
        have h0 : i = 0 := by omega
        subst h0
        rfl)
      rfl (Or.inl rfl)).1,
    (createPost_terminal_status ⟨5⟩ envErrorOnSecond sampleAccount sampleDto "p-3" 0 "c-1" 1
      ContainerStatusCode.error rfl (by decide)
      (fun i hi => by
        have h0 : i = 0 := by omega
        subst h0
        rfl)
      rfl (Or.inl rfl)).2.1⟩

/-- Claim C7: `refreshTokenIfNeeded` is a no-op — account unchanged, no remote
call, no save — exactly when `expiry − now ≥ 7 days`; otherwise it first calls
the refresh endpoint with the current token and, given a success response,
replaces both token and expiry from the response and persists the result. -/
theorem refreshTokenIfNeeded_policy (now : Int) (resp : Except String TokenRefreshResponse)
    (account : InstagramAccount) :
    (account.tokenExpiresAt - now ≥ 7 * 24 * 60 * 60 * 1000 →
      refreshTokenIfNeeded now resp account = ([], Except.ok account)) ∧
    (account.tokenExpiresAt - now < 7 * 24 * 60 * 60 * 1000 →
      (refreshTokenIfNeeded now resp account).1.head? =
        some (RefreshEv.remoteRefresh account.accessToken) ∧
      ∀ d, resp = Except.ok d →
        refreshTokenIfNeeded now resp account =
          ([RefreshEv.remoteRefresh account.accessToken,
            RefreshEv.saveAccount { account with
              accessToken := d.access_token
              tokenExpiresAt := now + d.expires_in * 1000 }],
            Except.ok { account with
              accessToken := d.access_token
              tokenExpiresAt := now + d.expires_in * 1000 })) := by
  constructor
  · intro hge
    have hnot : ¬ (account.tokenExpiresAt - now < 604800000) := by omega
    simp [refreshTokenIfNeeded, hnot]
  · intro hlt
    have hlt2 : account.tokenExpiresAt - now < 604800000 := by omega
    constructor
    · cases resp <;> simp [refreshTokenIfNeeded, hlt2]
    · intro d hd
      subst hd
      simp [refreshTokenIfNeeded, hlt2]

/-- Witness for C7: at `now = 0`, an account expiring at `7*24*60*60*1000`
(exactly 7 days out) is untouched; `sampleAccount` (already expired) is
refreshed with its current token and both fields replaced from the response. -/
theorem refreshTokenIfNeeded_policy_witness :
    refreshTokenIfNeeded 0
        (Except.ok { access_token := "tok-new", token_type := "bearer", expires_in := 5184000 })
        { sampleAccount with tokenExpiresAt := 604800000 } =
      ([], Except.ok { sampleAccount with tokenExpiresAt := 604800000 }) ∧
    refreshTokenIfNeeded 0
        (Except.ok { access_token := "tok-new", token_type := "bearer", expires_in := 5184000 })
        sampleAccount =
      ([RefreshEv.remoteRefresh "tok-0",
        RefreshEv.saveAccount
          { sampleAccount with accessToken := "tok-new", tokenExpiresAt := 5184000000 }],
        Except.ok
          { sampleAccount with accessToken := "tok-new", tokenExpiresAt := 5184000000 }) :=
  ⟨(refreshTokenIfNeeded_policy 0
      (Except.ok { access_token := "tok-new", token_type := "bearer", expires_in := 5184000 })
      { sampleAccount with tokenExpiresAt := 604800000 }).1 (by decide),
    ((refreshTokenIfNeeded_policy 0
      (Except.ok { access_token := "tok-new", token_type := "bearer", expires_in := 5184000 })
      sampleAccount).2 (by decide)).2
      { access_token := "tok-new", token_type := "bearer", expires_in := 5184000 } rfl⟩

/-- Replacing by an id absent from the list is the identity map. -/
theorem map_saveReplace_of_ne (l : List InstagramAccount) (a : InstagramAccount)
    (h : ∀ x ∈ l, x.id ≠ a.id) :
    l.map (fun x => if x.id == a.id then a else x) = l := by
  induction l with
  | nil => rfl
  | cons y ys ih =>
    have hy : (y.id == a.id) = false := by
      simp [h y (List.mem_cons_self y ys)]
    have hys : ∀ x ∈ ys, x.id ≠ a.id := fun x hx => h x (List.mem_cons_of_mem y hx)
    rw [List.map_cons, ih hys, hy]
    simp

/-- Saving a row whose id is not in the repository appends it. -/
theorem saveAccountRow_insert (db : List InstagramAccount) (a : InstagramAccount)
    (h : ∀ x ∈ db, x.id ≠ a.id) :
    saveAccountRow db a = db ++ [a] := by
  have hany : db.any (fun x => x.id == a.id) = false := by
    rw [List.any_eq_false]
    intro x hx
    simp [h x hx]
  simp [saveAccountRow, hany]

/-- Saving a row with the id of the last element replaces that element when no
earlier element shares the id. -/
theorem saveAccountRow_replace_appended (db : List InstagramAccount)
    (a b : InstagramAccount) (hid : b.id = a.id) (h : ∀ x ∈ db, x.id ≠ b.id) :
    saveAccountRow (db ++ [a]) b = db ++ [b] := by
  have hany : (db ++ [a]).any (fun x => x.id == b.id) = true := by
    simp only [List.any_append, List.any_cons, List.any_nil, Bool.or_eq_true]
    right
    simp [hid]
  simp only [saveAccountRow, hany, if_true, List.map_append]
  rw [map_saveReplace_of_ne db b h]
  simp [hid]

/-- Claim C8: starting from a repository with no row for remote user id `uid`
(and fresh UUIDs), upserting twice for `uid` with different profiles leaves
exactly one row for `uid`, carrying the second call's username, token and
expiry, with `isActive` forced to `true`; after the first upsert a single
active row exists. -/
theorem upsertAccount_twice (db : List InstagramAccount) (freshId freshId2 : String)
    (now now2 : Int) (p1 p2 : InstagramUserProfile) (t1 t2 : String) (e1 e2 : Int)
    (uid : String)
    (hp1 : p1.id = uid) (hp2 : p2.id = uid)
    (hnone : db.countP (fun a => a.igUserId == uid) = 0)
    (hfresh : ∀ a ∈ db, a.id ≠ freshId) :
    ((upsertAccount db freshId now p1 t1 e1).2.countP (fun a => a.igUserId == uid) = 1 ∧
      ∀ a ∈ (upsertAccount db freshId now p1 t1 e1).2, a.igUserId = uid →
        a.isActive = true) ∧
    ((upsertAccount (upsertAccount db freshId now p1 t1 e1).2 freshId2 now2 p2 t2 e2).2.countP
        (fun a => a.igUserId == uid) = 1 ∧
      ∀ a ∈ (upsertAccount (upsertAccount db freshId now p1 t1 e1).2 freshId2 now2 p2 t2 e2).2,
        a.igUserId = uid →
          a.username = p2.username ∧ a.accessToken = t2 ∧ a.tokenExpiresAt = e2 ∧
            a.isActive = true) := by
  have hdbnone : ∀ a ∈ db, ¬ ((fun a => a.igUserId == uid) a = true) :=
    List.countP_eq_zero.mp hnone
  have hfind1 : db.find? (fun a => a.igUserId == p1.id) = none := by
    rw [hp1]
    exact List.find?_eq_none.mpr hdbnone
  have hfinduid : db.find? (fun a => a.igUserId == uid) = none :=
    List.find?_eq_none.mpr hdbnone
  have hdb1 : (upsertAccount db freshId now p1 t1 e1).2 =
      db ++ [{ id := freshId, igUserId := p1.id, username := p1.username,
               name := p1.name, profilePictureUrl := p1.profile_picture_url,
               accessToken := t1, tokenExpiresAt := e1, isActive := true,
               createdAt := now, updatedAt := now }] := by
    simp only [upsertAccount, hfind1]
    exact saveAccountRow_insert db _ hfresh
  have hfind2 : (db ++
        [({ id := freshId, igUserId := p1.id, username := p1.username,
            name := p1.name, profilePictureUrl := p1.profile_picture_url,
            accessToken := t1, tokenExpiresAt := e1, isActive := true,
            createdAt := now, updatedAt := now } : InstagramAccount)]).find?
        (fun a => a.igUserId == p2.id) =
      some { id := freshId, igUserId := p1.id, username := p1.username,
             name := p1.name, profilePictureUrl := p1.profile_picture_url,
             accessToken := t1, tokenExpiresAt := e1, isActive := true,
             createdAt := now, updatedAt := now } := by
    rw [hp2, List.find?_append, hfinduid]
    simp [hp1]
  have hdb2 : (upsertAccount (upsertAccount db freshId now p1 t1 e1).2 freshId2 now2 p2 t2 e2).2 =
      db ++ [{ id := freshId, igUserId := p1.id, username := p2.username,
               name := p2.name, profilePictureUrl := p2.profile_picture_url,
               accessToken := t2, tokenExpiresAt := e2, isActive := true,
               createdAt := now, updatedAt := now }] := by
    rw [hdb1]
    simp only [upsertAccount, hfind2]
    exact saveAccountRow_replace_appended db _ _ rfl hfresh
  refine ⟨⟨?_, ?_⟩, ?_, ?_⟩
  · rw [hdb1, List.countP_append, hnone]
    simp [hp1]
  · intro a ha huid
    rw [hdb1] at ha
    rcases List.mem_append.mp ha with hin | hin
    · exact absurd (by simp [huid]) (hdbnone a hin)
    · simp only [List.mem_singleton] at hin
      subst hin
      rfl
  · rw [hdb2, List.countP_append, hnone]
    simp [hp1]
  · intro a ha huid
    rw [hdb2] at ha
    rcases List.mem_append.mp ha with hin | hin
    · exact absurd (by simp [huid]) (hdbnone a hin)
    · simp only [List.mem_singleton] at hin
      subst hin
      exact ⟨rfl, rfl, rfl, rfl⟩

/-- Witness for C8: from an empty repository, connecting `ig-9` as `alice` and
then as `bob` leaves exactly one `ig-9` row, named `bob`, with the second
token and expiry, active. -/
theorem upsertAccount_twice_witness :
    (upsertAccount
        (upsertAccount [] "acct-9" 0
          { id := "ig-9", username := "alice", name := none, profile_picture_url := none }
          "t-1" 1).2
        "acct-10" 5
        { id := "ig-9", username := "bob", name := none, profile_picture_url := none }
        "t-2" 2).2.countP (fun a => a.igUserId == "ig-9") = 1 ∧
    ∀ a ∈ (upsertAccount
        (upsertAccount [] "acct-9" 0
          { id := "ig-9", username := "alice", name := none, profile_picture_url := none }
          "t-1" 1).2
        "acct-10" 5
        { id := "ig-9", username := "bob", name := none, profile_picture_url := none }
        "t-2" 2).2,
      a.igUserId = "ig-9" →
        a.username = "bob" ∧ a.accessToken = "t-2" ∧ a.tokenExpiresAt = 2 ∧
          a.isActive = true :=
  (upsertAccount_twice [] "acct-9" "acct-10" 0 5
    { id := "ig-9", username := "alice", name := none, profile_picture_url := none }
    { id := "ig-9", username := "bob", name := none, profile_picture_url := none }
    "t-1" "t-2" 1 2 "ig-9" rfl rfl rfl (fun a ha => absurd ha (List.not_mem_nil a))).2

/-- Counterexample to C3 as stated: an HTTP-success response whose payload is
the JSON error envelope is returned as a value by all three client operations;
no failure signal is raised. -/
theorem remoteClient_envelope_on_ok_counterexample :
    createMediaContainer
      { ok := true, body := ApiPayload.envelope
          { message := "boom", type := "OAuthException", code := 190, fbtrace_id := "t1" } } =
      Except.ok (ApiPayload.envelope
        { message := "boom", type := "OAuthException", code := 190, fbtrace_id := "t1" }) ∧
    getContainerStatus
      { ok := true, body := ApiPayload.envelope
          { message := "boom", type := "OAuthException", code := 190, fbtrace_id := "t1" } } =
      Except.ok (ApiPayload.envelope
        { message := "boom", type := "OAuthException", code := 190, fbtrace_id := "t1" }) ∧
    publishContainer
      { ok := true, body := ApiPayload.envelope
          { message := "boom", type := "OAuthException", code := 190, fbtrace_id := "t1" } } =
      Except.ok (ApiPayload.envelope
        { message := "boom", type := "OAuthException", code := 190, fbtrace_id := "t1" }) :=
  ⟨rfl, rfl, rfl⟩

/-- Claim C3 as amended: each client operation raises a single failure signal
exactly on a non-success HTTP outcome — carrying the envelope's message when
the payload is the envelope — and on a success HTTP outcome returns the parsed
payload unchanged, without inspecting it for an error envelope. -/
theorem remoteClient_error_handling :
    (∀ (resp : HttpResponse CreateContainerResponse), resp.ok = false →
      ∃ m, createMediaContainer resp = Except.error m) ∧
    (∀ (resp : HttpResponse CreateContainerResponse) (e : GraphApiError),
      resp.ok = false → resp.body = ApiPayload.envelope e →
      createMediaContainer resp = Except.error ("Container creation failed: " ++ e.message)) ∧
    (∀ (resp : HttpResponse CreateContainerResponse), resp.ok = true →
      createMediaContainer resp = Except.ok resp.body) ∧
    (∀ (resp : HttpResponse ContainerStatusResponse), resp.ok = false →
      ∃ m, getContainerStatus resp = Except.error m) ∧
    (∀ (resp : HttpResponse ContainerStatusResponse) (e : GraphApiError),
      resp.ok = false → resp.body = ApiPayload.envelope e →
      getContainerStatus resp = Except.error ("Container status check failed: " ++ e.message)) ∧
    (∀ (resp : HttpResponse ContainerStatusResponse), resp.ok = true →
      getContainerStatus resp = Except.ok resp.body) ∧
    (∀ (resp : HttpResponse PublishMediaResponse), resp.ok = false →
      ∃ m, publishContainer resp = Except.error m) ∧
    (∀ (resp : HttpResponse PublishMediaResponse) (e : GraphApiError),
      resp.ok = false → resp.body = ApiPayload.envelope e →
      publishContainer resp = Except.error ("Media publish failed: " ++ e.message)) ∧
    (∀ (resp : HttpResponse PublishMediaResponse), resp.ok = true →
      publishContainer resp = Except.ok resp.body) := by
  refine ⟨?_, ?_, ?_, ?_, ?_, ?_, ?_, ?_, ?_⟩
  · intro resp hok
    cases hb : resp.body with
    | success v =>
      exact ⟨"TypeError: cannot read message of undefined", by simp [createMediaContainer, hok, hb]⟩
    | envelope e =>
      exact ⟨"Container creation failed: " ++ e.message, by simp [createMediaContainer, hok, hb]⟩
  · intro resp e hok hb
    simp [createMediaContainer, hok, hb]
  · intro resp hok
    simp [createMediaContainer, hok]
  · intro resp hok
    cases hb : resp.body with
    | success v =>
      exact ⟨"TypeError: cannot read message of undefined", by simp [getContainerStatus, hok, hb]⟩
    | envelope e =>
      exact ⟨"Container status check failed: " ++ e.message, by simp [getContainerStatus, hok, hb]⟩
  · intro resp e hok hb
    simp [getContainerStatus, hok, hb]
  · intro resp hok
    simp [getContainerStatus, hok]
  · intro resp hok
    cases hb : resp.body with
    | success v =>
      exact ⟨"TypeError: cannot read message of undefined", by simp [publishContainer, hok, hb]⟩
    | envelope e =>
      exact ⟨"Media publish failed: " ++ e.message, by simp [publishContainer, hok, hb]⟩
  · intro resp e hok hb
    simp [publishContainer, hok, hb]
  · intro resp hok
    simp [publishContainer, hok]

/-- Witness for the amended C3 at concrete responses. -/
theorem remoteClient_error_handling_witness :
    createMediaContainer
      { ok := false, body := ApiPayload.envelope
          { message := "bad url", type := "OAuthException", code := 100, fbtrace_id := "t2" } } =
      Except.error "Container creation failed: bad url" ∧
    getContainerStatus
      { ok := false, body := ApiPayload.envelope
          { message := "bad id", type := "OAuthException", code := 100, fbtrace_id := "t3" } } =
      Except.error "Container status check failed: bad id" ∧
    publishContainer
      { ok := false, body := ApiPayload.envelope
          { message := "bad token", type := "OAuthException", code := 190, fbtrace_id := "t4" } } =
      Except.error "Media publish failed: bad token" ∧
    createMediaContainer { ok := true, body := ApiPayload.success { id := "c9" } } =
      Except.ok (ApiPayload.success { id := "c9" }) :=
  ⟨remoteClient_error_handling.2.1
      { ok := false, body := ApiPayload.envelope
          { message := "bad url", type := "OAuthException", code := 100, fbtrace_id := "t2" } }
      { message := "bad url", type := "OAuthException", code := 100, fbtrace_id := "t2" } rfl rfl,
    remoteClient_error_handling.2.2.2.2.1
      { ok := false, body := ApiPayload.envelope
          { message := "bad id", type := "OAuthException", code := 100, fbtrace_id := "t3" } }
      { message := "bad id", type := "OAuthException", code := 100, fbtrace_id := "t3" } rfl rfl,
    remoteClient_error_handling.2.2.2.2.2.2.2.1
      { ok := false, body := ApiPayload.envelope
          { message := "bad token", type := "OAuthException", code := 190, fbtrace_id := "t4" } }
      { message := "bad token", type := "OAuthException", code := 190, fbtrace_id := "t4" } rfl rfl,
    remoteClient_error_handling.2.2.1
      { ok := true, body := ApiPayload.success { id := "c9" } } rfl⟩

/-- `scrubHidden` does not change the sort key. -/
theorem scrubHidden_createdAt (p : InstagramPost) :
    (scrubHidden p).createdAt = p.createdAt := rfl

/-- Insertion by `createdAt` commutes with erasing the hidden fields. -/
theorem insertByCreatedAtDesc_scrub (p : InstagramPost) (l : List InstagramPost) :
    insertByCreatedAtDesc (scrubHidden p) (l.map scrubHidden) =
      (insertByCreatedAtDesc p l).map scrubHidden := by
  induction l with
  | nil => rfl
  | cons q rest ih =>
    simp only [List.map_cons, insertByCreatedAtDesc, scrubHidden_createdAt]
    by_cases h : p.createdAt > q.createdAt
    · rw [if_pos h, if_pos h, List.map_cons, List.map_cons]
    · rw [if_neg h, if_neg h, List.map_cons, ih]

/-- Sorting by `createdAt` commutes with erasing the hidden fields. -/
theorem sortByCreatedAtDesc_scrub (db : List InstagramPost) :
    sortByCreatedAtDesc (db.map scrubHidden) = (sortByCreatedAtDesc db).map scrubHidden := by
  induction db with
  | nil => rfl
  | cons p rest ih =>
    simp only [sortByCreatedAtDesc, List.map_cons, List.foldr_cons] at ih ⊢
    rw [ih, insertByCreatedAtDesc_scrub]

/-- Claim C9: the post views are functions of the copied fields only — erasing
`errorMessage` and `accountId` changes neither `toResponse` nor any result of
`getPost` or `listPosts`, so a stored error message never appears in a
post-read result. -/
theorem postViews_hide_error_and_account :
    (∀ (p : InstagramPost) (em aid : Option String),
      toResponse { p with errorMessage := em, accountId := aid } = toResponse p) ∧
    (∀ (db : List InstagramPost) (pid : String),
      getPost (db.map scrubHidden) pid = getPost db pid) ∧
    (∀ db : List InstagramPost, listPosts (db.map scrubHidden) = listPosts db) := by
  refine ⟨fun p em aid => rfl, ?_, ?_⟩
  · intro db pid
    simp only [getPost, List.find?_map]
    have hpred : ((fun p => p.id == pid) ∘ scrubHidden) = fun p => p.id == pid := rfl
    rw [hpred]
    cases h : db.find? (fun p => p.id == pid) <;> rfl
  · intro db
    simp only [listPosts, sortByCreatedAtDesc_scrub, List.map_map]
    exact List.map_congr_left fun p _ => rfl

/-- `handleCallback`'s response component is unchanged when every stored access
token is rewritten: the upserted account's visible fields do not depend on the
stored token. -/
theorem upsertAccount_fst_token_invariant (db : List InstagramAccount)
    (f : InstagramAccount → String) (freshId : String) (now : Int)
    (profile : InstagramUserProfile) (tok : String) (exp : Int) :
    toAccountResponse
        (upsertAccount (db.map (fun a => { a with accessToken := f a }))
          freshId now profile tok exp).1 =
      toAccountResponse (upsertAccount db freshId now profile tok exp).1 := by
  simp only [upsertAccount, List.find?_map]
  have hpred : ((fun a => a.igUserId == profile.id) ∘
      (fun a : InstagramAccount => { a with accessToken := f a })) =
      fun a : InstagramAccount => a.igUserId == profile.id := rfl
  rw [hpred]
  cases h : db.find? (fun a => a.igUserId == profile.id) <;> rfl

/-- Claim C10: the account views are independent of the stored access token —
`toAccountResponse` ignores it, and rewriting every stored token changes
neither the `listAccounts` response data nor the `handleCallback` response
data; the response type itself carries no token field. -/
theorem accountViews_hide_token :
    (∀ (a : InstagramAccount) (t : String),
      toAccountResponse { a with accessToken := t } = toAccountResponse a) ∧
    (∀ (db : List InstagramAccount) (f : InstagramAccount → String),
      listAccountsData (db.map (fun a => { a with accessToken := f a })) =
        listAccountsData db) ∧
    (∀ (db : List InstagramAccount) (f : InstagramAccount → String) (freshId : String)
        (now : Int) (ex : Except String ExchangeResult)
        (prof : Except String InstagramUserProfile),
      Except.map Prod.fst
          (handleCallback (db.map (fun a => { a with accessToken := f a })) freshId now ex prof) =
        Except.map Prod.fst (handleCallback db freshId now ex prof)) := by
  refine ⟨fun a t => rfl, ?_, ?_⟩
  · intro db f
    simp only [listAccountsData, listActiveAccounts, List.filter_map, List.map_map]
    have hpred : ((fun a => a.isActive) ∘
        (fun a : InstagramAccount => { a with accessToken := f a })) =
        fun a : InstagramAccount => a.isActive := rfl
    rw [hpred]
    exact List.map_congr_left fun a _ => rfl
  · intro db f freshId now ex prof
    cases ex with
    | error e => rfl
    | ok exr =>
      cases prof with
      | error e => rfl
      | ok profile =>
        simp only [handleCallback, Except.map]
        rw [upsertAccount_fst_token_invariant]

end InstagramManager
